import Mathlib

/-!
# Semantic response cache — formal model of `src/server.js`

A shallow embedding of the `/ask` resolver of the product-agent backend.
The external collaborators (embedding provider, generation provider) are
parameters of the resolver: deterministic oracles `String → Option _`
where `none` models a provider failure.  The expiring key-value store
(Redis) is modelled as an in-state association list carrying absolute
expiry times; store failures (caught and logged in the source) are not
modelled — the claims under study condition on a functioning cache.
File persistence (`saveChatHistory`) mirrors the in-memory array and is
not modelled separately.  Floating-point numbers are idealised as `ℝ`.
-/

namespace ProductAgent

/-- One resolved question/answer pair, `server.js` lines 308–313
(`{question, answer, timestamp, embedding}`).  `embedding` is the
optional fingerprint; entries loaded from disk may lack it. -/
structure QARecord where
  question : String
  answer : String
  timestamp : String
  embedding : Option (List ℝ)

/-- The JSON value found at `req.body.question`.  Enough constructors to
express the malformed inputs of interest (missing key = `vUndefined`,
number, null, string). -/
inductive JsValue where
  | vStr : String → JsValue
  | vNum : Int → JsValue
  | vNull : JsValue
  | vUndefined : JsValue

/-- JavaScript `String.prototype.trim`: strip leading and trailing
whitespace.  (Lean's own `String.trim` is extensionally the same but is
defined by well-founded recursion on byte positions, which the kernel
cannot evaluate; this structural version reduces on concrete strings.) -/
def jsTrim (s : String) : String :=
  ⟨((s.data.dropWhile Char.isWhitespace).reverse.dropWhile Char.isWhitespace).reverse⟩

/-- JavaScript truthiness of the modelled values: `""`, `0`, `null`,
`undefined` are falsy. -/
def jsTruthy : JsValue → Bool
  | .vStr s => s != ""
  | .vNum n => n != 0
  | .vNull => false
  | .vUndefined => false

/-- The input guard of `/ask`, lines 204–210:
`!userQuestion || typeof userQuestion !== 'string' || userQuestion.trim() === ''`
rejects with 400; otherwise the raw (untrimmed) string is used. -/
def checkQuestion (q : JsValue) : Option String :=
  match q with
  | .vStr s =>
      if jsTruthy (.vStr s) = false then none
      else if jsTrim s = "" then none
      else some s
  | _ => none

/-- The hot cache: one entry per key — key, value, absolute expiry. -/
abbrev RedisStore := List (String × String × ℕ)

/-- `redisClient.get`: the stored value when the key is present and not
yet expired (an entry set with `EX n` at time `t` is live strictly
before `t + n`). -/
def redisGet (store : RedisStore) (now : ℕ) (key : String) : Option String :=
  match store.find? (fun e => e.1 == key) with
  | some e => if now < e.2.2 then some e.2.1 else none
  | none => none

/-- `redisClient.set key value {EX: ttl}`: overwrite the key, new expiry. -/
def redisSet (store : RedisStore) (key value : String) (expiresAt : ℕ) : RedisStore :=
  (key, value, expiresAt) :: store.filter (fun e => e.1 != key)

/-- Line 222, `if (cachedAnswer)`: the cached value counts as a hit only
when truthy, so an empty-string value is treated as a miss. -/
def cacheLookup (store : RedisStore) (now : ℕ) (key : String) : Option String :=
  match redisGet store now key with
  | some v => if v = "" then none else some v
  | none => none

/-- Accumulated `dotProduct` of the loop at lines 144–148. -/
def dotProduct (vecA vecB : List ℝ) : ℝ :=
  (List.zipWith (fun a b => a * b) vecA vecB).sum

/-- Accumulated sum of squares (`normA` / `normB` in the source; the
squared Euclidean norm). -/
def sqNorm (v : List ℝ) : ℝ :=
  (v.map (fun x => x ^ 2)).sum

/-- `cosineSimilarity`, lines 140–151.  The source loop runs over the
indices of `vecA`, so `normB` only sums the first `vecA.length` squares
of `vecB`; an out-of-range read (when `vecB` is shorter) would give NaN
in JavaScript and is outside this real-valued model — the callers always
pass equal-length vectors. -/
noncomputable def cosineSimilarity (vecA vecB : List ℝ) : ℝ :=
  let dp := dotProduct vecA vecB
  let normA := sqNorm vecA
  let normB := sqNorm (vecB.take vecA.length)
  if normA = 0 ∨ normB = 0 then 0
  else dp / (Real.sqrt normA * Real.sqrt normB)

/-- Mutable server state touched by `/ask`: the Redis hot cache and the
in-memory `chatHistory` array (mirrored to disk on save). -/
structure ServerState where
  redis : RedisStore
  chatHistory : List QARecord

/-- Body of an HTTP response from `/ask`: `{reply}` or `{error}`. -/
inductive ResponseBody where
  | reply : String → ResponseBody
  | error : String → ResponseBody

/-- Outcome of one `/ask` request: HTTP status, body, resulting server
state, and how many calls the request made to the embedding provider and
to the generation provider. -/
structure AskResult where
  status : ℕ
  body : ResponseBody
  state : ServerState
  embedCalls : ℕ
  genCalls : ℕ

/-- `new Date().toISOString()`: some rendering of the clock; its exact
format is irrelevant to every claim. -/
def isoTimestamp (now : ℕ) : String := toString now

/-- The fixed similarity threshold, line 249. -/
noncomputable def similarityThreshold : ℝ := 0.8

/-- One iteration of the best-match loop, lines 239–247: records without
an embedding are skipped; the accumulator `(maxSimilarity, bestMatch)`
is replaced exactly when `similarity > maxSimilarity` (strict). -/
noncomputable def scanStep (userEmbedding : List ℝ)
    (acc : ℝ × Option QARecord) (chat : QARecord) : ℝ × Option QARecord :=
  match chat.embedding with
  | some e =>
      let similarity := cosineSimilarity userEmbedding e
      if acc.1 < similarity then (similarity, some chat) else acc
  | none => acc

/-- The whole scan, lines 236–247, starting from
`maxSimilarity = 0, bestMatch = null` (the spec calls it
`findBestMatch`). -/
noncomputable def findBestMatch (userEmbedding : List ℝ)
    (history : List QARecord) : ℝ × Option QARecord :=
  history.foldl (scanStep userEmbedding) (0, none)

/-- The generation branch, lines 270–328: call the generation provider
(`none` = thrown provider error, caught at line 330 as a 500 with no
state change); on success trim the text, append the new record (with the
query's own embedding) to `chatHistory`, populate the hot cache with a
one-hour TTL, and reply. -/
def generatePath (genO : String → Option String) (now : ℕ)
    (st : ServerState) (s : String) (v : List ℝ) : AskResult :=
  match genO s with
  | none =>
      ⟨500, .error "An error occurred while processing your request.", st, 1, 1⟩
  | some g =>
      let answer := jsTrim g
      let newChat : QARecord := ⟨s, answer, isoTimestamp now, some v⟩
      ⟨200, .reply answer,
        ⟨redisSet st.redis s answer (now + 3600), st.chatHistory ++ [newChat]⟩, 1, 1⟩

/-- Lines 251–268: accept the best match exactly when one exists and
`maxSimilarity >= similarityThreshold`; on acceptance cache the reused
answer (1-hour TTL) and reply without generating, leaving `chatHistory`
untouched. -/
noncomputable def askSimilarity (genO : String → Option String) (now : ℕ)
    (st : ServerState) (s : String) (v : List ℝ) : AskResult :=
  match findBestMatch v st.chatHistory with
  | (maxSim, some best) =>
      if similarityThreshold ≤ maxSim then
        ⟨200, .reply best.answer,
          ⟨redisSet st.redis s best.answer (now + 3600), st.chatHistory⟩, 1, 0⟩
      else generatePath genO now st s v
  | (_, none) => generatePath genO now st s v

/-- Lines 227–233: compute the query fingerprint; if the embedding
provider fails (`getEmbedding` returned null) the handler aborts with a
500 and never reaches similarity search or generation. -/
noncomputable def askMiss (embedO : String → Option (List ℝ))
    (genO : String → Option String) (now : ℕ) (st : ServerState)
    (s : String) : AskResult :=
  match embedO s with
  | none => ⟨500, .error "Failed to generate embedding for the question.", st, 1, 0⟩
  | some v => askSimilarity genO now st s v

/-- Lines 214–225: consult the hot cache first; a truthy cached answer is
returned at once with no provider calls and no state change. -/
noncomputable def askValid (embedO : String → Option (List ℝ))
    (genO : String → Option String) (now : ℕ) (st : ServerState)
    (s : String) : AskResult :=
  match cacheLookup st.redis now s with
  | some cached => ⟨200, .reply cached, st, 0, 0⟩
  | none => askMiss embedO genO now st s

/-- The `/ask` handler, lines 201–339, as a pure function of the provider
oracles, the clock, the server state and the request body. -/
noncomputable def ask (embedO : String → Option (List ℝ))
    (genO : String → Option String) (now : ℕ) (st : ServerState)
    (q : JsValue) : AskResult :=
  match checkQuestion q with
  | none => ⟨400, .error "Invalid question format.", st, 0, 0⟩
  | some s => askValid embedO genO now st s

/-- One step of `initializeEmbeddings`, lines 178–191: a record without
an embedding gets one from the provider (left untouched if the provider
fails); no other field changes; records with an embedding are skipped. -/
def backfillRecord (embedO : String → Option (List ℝ)) (chat : QARecord) : QARecord :=
  match chat.embedding with
  | some _ => chat
  | none =>
      match embedO chat.question with
      | some e => { chat with embedding := some e }
      | none => chat

/-- `initializeEmbeddings`, lines 176–198: backfill every record of the
loaded history in place. -/
def initializeEmbeddings (embedO : String → Option (List ℝ))
    (history : List QARecord) : List QARecord :=
  history.map (backfillRecord embedO)

/-! ## Helper lemmas -/

/-- A question that passes the guard is a string that is non-empty and
has non-whitespace content. -/
theorem checkQuestion_props (q : JsValue) (s : String)
    (h : checkQuestion q = some s) :
    q = JsValue.vStr s ∧ s ≠ "" ∧ jsTrim s ≠ "" := by
  cases q with
  | vStr t =>
      simp only [checkQuestion] at h
      by_cases h1 : jsTruthy (JsValue.vStr t) = false
      · simp [h1] at h
      · by_cases h2 : jsTrim t = ""
        · simp [h1, h2] at h
        · simp only [h1, h2, if_false, if_neg, ite_false] at h
          have ht : t = s := by
            by_contra hne
            simp [h1, h2, hne] at h
          subst ht
          refine ⟨rfl, ?_, h2⟩
          intro he
          subst he
          simp [jsTruthy] at h1
  | vNum n => simp [checkQuestion] at h
  | vNull => simp [checkQuestion] at h
  | vUndefined => simp [checkQuestion] at h

/-- Reading back the key just written, before its expiry. -/
theorem redisGet_redisSet_self (store : RedisStore) (k v : String)
    (e t : ℕ) (h : t < e) :
    redisGet (redisSet store k v e) t k = some v := by
  unfold redisGet redisSet
  rw [List.find?_cons_of_pos _ (by simp)]
  simp [h]

/-- A truthy value just written is a cache hit before its expiry. -/
theorem cacheLookup_redisSet_self (store : RedisStore) (k v : String)
    (e t : ℕ) (h : t < e) (hv : v ≠ "") :
    cacheLookup (redisSet store k v e) t k = some v := by
  unfold cacheLookup
  rw [redisGet_redisSet_self store k v e t h]
  simp [hv]

/-- Every run of the handler has one of six outcome shapes: 400 on the
guard; hot-cache hit; 500 on embedding failure; similarity hit; 500 on
generation failure; successful generation with one appended record. -/
theorem ask_cases (embedO : String → Option (List ℝ))
    (genO : String → Option String) (now : ℕ) (st : ServerState) (q : JsValue) :
    (ask embedO genO now st q = ⟨400, .error "Invalid question format.", st, 0, 0⟩) ∨
    (∃ a, ask embedO genO now st q = ⟨200, .reply a, st, 0, 0⟩) ∨
    (ask embedO genO now st q =
      ⟨500, .error "Failed to generate embedding for the question.", st, 1, 0⟩) ∨
    (∃ (s : String) (best : QARecord), checkQuestion q = some s ∧ ask embedO genO now st q =
      ⟨200, .reply best.answer,
        ⟨redisSet st.redis s best.answer (now + 3600), st.chatHistory⟩, 1, 0⟩) ∨
    (ask embedO genO now st q =
      ⟨500, .error "An error occurred while processing your request.", st, 1, 1⟩) ∨
    (∃ (s : String) (v : List ℝ) (g : String), checkQuestion q = some s ∧ embedO s = some v ∧ genO s = some g ∧
      ask embedO genO now st q =
        ⟨200, .reply (jsTrim g),
          ⟨redisSet st.redis s (jsTrim g) (now + 3600),
            st.chatHistory ++ [⟨s, jsTrim g, isoTimestamp now, some v⟩]⟩, 1, 1⟩) := by
  rcases hq : checkQuestion q with _ | s
  · refine Or.inl ?_
    simp [ask, hq]
  · rcases hc : cacheLookup st.redis now s with _ | cached
    · rcases he : embedO s with _ | v
      · refine Or.inr (Or.inr (Or.inl ?_))
        simp [ask, hq, askValid, hc, askMiss, he]
      · have hgen : ∀ st2 : ServerState,
            (generatePath genO now st2 s v =
              ⟨500, .error "An error occurred while processing your request.",
                st2, 1, 1⟩) ∨
            (∃ g, genO s = some g ∧ generatePath genO now st2 s v =
              ⟨200, .reply (jsTrim g),
                ⟨redisSet st2.redis s (jsTrim g) (now + 3600),
                  st2.chatHistory ++ [⟨s, jsTrim g, isoTimestamp now, some v⟩]⟩,
                1, 1⟩) := by
          intro st2
          rcases hg : genO s with _ | g
          · refine Or.inl ?_
            simp [generatePath, hg]
          · refine Or.inr ⟨g, rfl, ?_⟩
            simp [generatePath, hg]
        rcases hf : findBestMatch v st.chatHistory with ⟨m, _ | best⟩
        · rcases hgen st with h | ⟨g, hg, h⟩
          · refine Or.inr (Or.inr (Or.inr (Or.inr (Or.inl ?_))))
            simp only [ask, hq, askValid, hc, askMiss, he, askSimilarity, hf]
            exact h
          · refine Or.inr (Or.inr (Or.inr (Or.inr (Or.inr ⟨s, v, g, rfl, he, hg, ?_⟩))))
            simp only [ask, hq, askValid, hc, askMiss, he, askSimilarity, hf]
            exact h
        · by_cases hthr : similarityThreshold ≤ m
          · refine Or.inr (Or.inr (Or.inr (Or.inl ⟨s, best, rfl, ?_⟩)))
            simp only [ask, hq, askValid, hc, askMiss, he, askSimilarity, hf]
            rw [if_pos hthr]
          · rcases hgen st with h | ⟨g, hg, h⟩
            · refine Or.inr (Or.inr (Or.inr (Or.inr (Or.inl ?_))))
              simp only [ask, hq, askValid, hc, askMiss, he, askSimilarity, hf]
              rw [if_neg hthr]
              exact h
            · refine Or.inr (Or.inr (Or.inr (Or.inr (Or.inr ⟨s, v, g, rfl, he, hg, ?_⟩))))
              simp only [ask, hq, askValid, hc, askMiss, he, askSimilarity, hf]
              rw [if_neg hthr]
              exact h
    · refine Or.inr (Or.inl ⟨cached, ?_⟩)
      simp [ask, hq, askValid, hc]

/-! ## C1 — embedding failure handling -/

/-- C1, as stated, is false on the code: on a hot-cache miss with a
failing embedding provider, the `/ask` handler answers the request with
a fatal 500 — even though the generation oracle would have produced an
answer — instead of degrading to a fuzzy match or to generation.  Here
the whole run is computed at an explicit input: status 500, zero
generation calls, store untouched. -/
theorem embedding_failure_returns_500_cex :
    ask (fun _ => none) (fun _ => some "a fine fallback answer") 0 ⟨[], []⟩
      (.vStr "What is it?") =
      ⟨500, .error "Failed to generate embedding for the question.", ⟨[], []⟩, 1, 0⟩ := rfl

/-- C1 (amended): when the embedding call fails on a hot-cache miss, the
`/ask` handler aborts with a 500 error response, makes no generation
call, and leaves the server state unchanged — there is no fuzzy-match or
skip-to-generation fallback in this variant. -/
theorem embedding_failure_aborts (embedO : String → Option (List ℝ))
    (genO : String → Option String) (now : ℕ) (st : ServerState)
    (q : JsValue) (s : String)
    (hq : checkQuestion q = some s)
    (hmiss : cacheLookup st.redis now s = none)
    (hemb : embedO s = none) :
    ask embedO genO now st q =
      ⟨500, .error "Failed to generate embedding for the question.", st, 1, 0⟩ := by
  simp [ask, hq, askValid, hmiss, askMiss, hemb]

/-- C1 witness: the amended statement applied at a concrete input. -/
theorem embedding_failure_aborts_witness :
    ask (fun _ => none) (fun _ => none) 3 ⟨[], []⟩ (.vStr "hello") =
      ⟨500, .error "Failed to generate embedding for the question.", ⟨[], []⟩, 1, 0⟩ :=
  embedding_failure_aborts (fun _ => none) (fun _ => none) 3 ⟨[], []⟩
    (.vStr "hello") "hello" rfl rfl rfl

/-! ## C2 — malformed input -/

/-- C2: a request whose `question` is missing, not a string, or
empty/whitespace-only gets a 400 `Invalid question format.` response;
the server state (hot cache and `chatHistory` vector store) is returned
unchanged and neither provider is called. -/
theorem invalid_question_rejected (embedO : String → Option (List ℝ))
    (genO : String → Option String) (now : ℕ) (st : ServerState) (q : JsValue)
    (h : ∀ s, q = JsValue.vStr s → jsTrim s = "") :
    ask embedO genO now st q =
      ⟨400, .error "Invalid question format.", st, 0, 0⟩ := by
  have hq : checkQuestion q = none := by
    cases q with
    | vStr s =>
        have hs := h s rfl
        by_cases he : s = ""
        · subst he
          simp [checkQuestion, jsTruthy]
        · simp [checkQuestion, jsTruthy, he, hs]
    | vNum n => rfl
    | vNull => rfl
    | vUndefined => rfl
  simp [ask, hq]

/-- C2 witness: `{question: 123}` gets a 400 with no side effects. -/
theorem invalid_question_rejected_witness :
    ask (fun _ => some [1]) (fun _ => some "x") 0 ⟨[], []⟩ (.vNum 123) =
      ⟨400, .error "Invalid question format.", ⟨[], []⟩, 0, 0⟩ :=
  invalid_question_rejected (fun _ => some [1]) (fun _ => some "x") 0 ⟨[], []⟩
    (.vNum 123) (fun _ h => nomatch h)

/-! ## C4 — hot-cache hit precedes embedding -/

/-- C4, as stated, is false on the code: a *live* hot-cache entry whose
value is the empty string is falsy, so `if (cachedAnswer)` treats it as
a miss and the handler proceeds to call the embedding provider —
one embedding call despite an unexpired exact-text cache entry. -/
theorem hot_cache_empty_value_cex :
    redisGet [("q", "", 100)] 0 "q" = some "" ∧
    (ask (fun _ => some [1]) (fun _ => some "fresh") 0
      ⟨[("q", "", 100)], []⟩ (.vStr "q")).embedCalls = 1 :=
  ⟨rfl, rfl⟩

/-- C4 (amended): for every question whose exact text has a live
hot-cache entry with a non-empty value, the handler replies with the
cached answer, makes zero embedding (and generation) calls, and leaves
the state unchanged. -/
theorem hot_cache_hit_no_embedding (embedO : String → Option (List ℝ))
    (genO : String → Option String) (now : ℕ) (st : ServerState)
    (q : JsValue) (s v : String)
    (hq : checkQuestion q = some s)
    (hget : redisGet st.redis now s = some v) (hv : v ≠ "") :
    ask embedO genO now st q = ⟨200, .reply v, st, 0, 0⟩ := by
  have hl : cacheLookup st.redis now s = some v := by
    simp [cacheLookup, hget, hv]
  simp [ask, hq, askValid, hl]

/-- C4 witness: the amended statement applied at a concrete input. -/
theorem hot_cache_hit_no_embedding_witness :
    ask (fun _ => none) (fun _ => none) 5 ⟨[("what", "ans", 100)], []⟩ (.vStr "what") =
      ⟨200, .reply "ans", ⟨[("what", "ans", 100)], []⟩, 0, 0⟩ :=
  hot_cache_hit_no_embedding (fun _ => none) (fun _ => none) 5
    ⟨[("what", "ans", 100)], []⟩ (.vStr "what") "what" "ans" rfl rfl (by decide)

/-! ## C3 — idempotence under repetition -/

/-- After a successful run that missed the hot cache, the cache holds the
reply under the question text with a fresh one-hour expiry. -/
theorem ask_success_redis (embedO : String → Option (List ℝ))
    (genO : String → Option String) (t1 : ℕ) (st : ServerState)
    (q : JsValue) (s a : String)
    (hq : checkQuestion q = some s)
    (hmiss : cacheLookup st.redis t1 s = none)
    (hst : (ask embedO genO t1 st q).status = 200)
    (hbody : (ask embedO genO t1 st q).body = .reply a) :
    (ask embedO genO t1 st q).state.redis = redisSet st.redis s a (t1 + 3600) := by
  rcases he : embedO s with _ | v
  · have h500 : ask embedO genO t1 st q =
        ⟨500, .error "Failed to generate embedding for the question.", st, 1, 0⟩ := by
      simp [ask, hq, askValid, hmiss, askMiss, he]
    rw [h500] at hst
    simp at hst
  · rcases hf : findBestMatch v st.chatHistory with ⟨m, b⟩
    have hsim :
        ask embedO genO t1 st q = askSimilarity genO t1 st s v := by
      simp [ask, hq, askValid, hmiss, askMiss, he]
    rw [hsim] at hst hbody ⊢
    have hgen : ∀ hg2 : generatePath genO t1 st s v = askSimilarity genO t1 st s v,
        (askSimilarity genO t1 st s v).state.redis = redisSet st.redis s a (t1 + 3600) := by
      intro hg2
      rw [← hg2] at hst hbody ⊢
      rcases hg : genO s with _ | g
      · simp [generatePath, hg] at hst
      · simp only [generatePath, hg] at hbody ⊢
        cases hbody
        rfl
    cases b with
    | some best =>
        by_cases hthr : similarityThreshold ≤ m
        · simp only [askSimilarity, hf, if_pos hthr] at hbody ⊢
          cases hbody
          rfl
        · exact hgen (by simp [askSimilarity, hf, if_neg hthr])
    | none => exact hgen (by simp [askSimilarity, hf])

/-- C3, as stated, is false on the code: a first `/ask` can resolve
successfully (status 200) with an empty reply — the provider's text
trims to `""` — and, because an empty cached value is falsy and an
all-zero fingerprint has similarity 0 with itself, the second identical
question misses both the hot cache and the similarity matcher and makes
one additional generation call. -/
theorem repeat_question_regenerates_cex :
    (ask (fun _ => some [0]) (fun _ => some "") 0 ⟨[], []⟩ (.vStr "hi")).status = 200 ∧
    (ask (fun _ => some [0]) (fun _ => some "") 1
      (ask (fun _ => some [0]) (fun _ => some "") 0 ⟨[], []⟩ (.vStr "hi")).state
      (.vStr "hi")).genCalls = 1 := by
  constructor
  · rfl
  · have h1 : (ask (fun _ => some [0]) (fun _ => some "") 0 ⟨[], []⟩ (.vStr "hi")).state =
        ⟨[("hi", "", 3600)], [⟨"hi", "", isoTimestamp 0, some [0]⟩]⟩ := rfl
    rw [h1]
    simp [ask, askValid, askMiss, askSimilarity, generatePath, checkQuestion, jsTruthy,
      cacheLookup, redisGet, findBestMatch, scanStep, cosineSimilarity, sqNorm]
    rfl

/-- C3 (amended): after a first `/ask` that misses the hot cache and
resolves successfully with a *non-empty* reply, a second `/ask` with the
identical question text within the entry's one-hour TTL returns the same
reply, served from the hot cache, with zero additional embedding or
generation calls and no state change — whatever the providers would do
on the second call. -/
theorem repeat_question_idempotent (embedO embedO2 : String → Option (List ℝ))
    (genO genO2 : String → Option String) (t1 t2 : ℕ) (st : ServerState)
    (q : JsValue) (s a : String)
    (hq : checkQuestion q = some s)
    (hmiss : cacheLookup st.redis t1 s = none)
    (hst : (ask embedO genO t1 st q).status = 200)
    (hbody : (ask embedO genO t1 st q).body = .reply a)
    (ha : a ≠ "")
    (ht : t2 < t1 + 3600) :
    ask embedO2 genO2 t2 (ask embedO genO t1 st q).state q =
      ⟨200, .reply a, (ask embedO genO t1 st q).state, 0, 0⟩ := by
  have hr := ask_success_redis embedO genO t1 st q s a hq hmiss hst hbody
  have hl : cacheLookup (ask embedO genO t1 st q).state.redis t2 s = some a := by
    rw [hr]
    exact cacheLookup_redisSet_self st.redis s a (t1 + 3600) t2 ht ha
  generalize hone : (ask embedO genO t1 st q).state = st1 at hl ⊢
  simp [ask, hq, askValid, hl]

/-- C3 witness: a concrete first run (generation produces "the answer"),
then a repeat at t=10 with providers that would fail — still answered
from the hot cache. -/
theorem repeat_question_idempotent_witness :
    ask (fun _ => none) (fun _ => none) 10
      (ask (fun _ => some [1]) (fun _ => some "the answer") 0 ⟨[], []⟩ (.vStr "hola")).state
      (.vStr "hola") =
      ⟨200, .reply "the answer",
        (ask (fun _ => some [1]) (fun _ => some "the answer") 0 ⟨[], []⟩ (.vStr "hola")).state,
        0, 0⟩ :=
  repeat_question_idempotent (fun _ => some [1]) (fun _ => none)
    (fun _ => some "the answer") (fun _ => none) 0 10 ⟨[], []⟩
    (.vStr "hola") "hola" "the answer" rfl rfl rfl rfl (by decide) (by norm_num)

/-! ## Scan lemmas -/

/-- A scan step that reports no best match changed nothing. -/
theorem scanStep_eq_of_none (v : List ℝ) (acc : ℝ × Option QARecord)
    (c : QARecord) (h : (scanStep v acc c).2 = none) :
    scanStep v acc c = acc := by
  unfold scanStep at h ⊢
  cases hc : c.embedding with
  | none => rfl
  | some e =>
      rw [hc] at h
      replace h : (if acc.1 < cosineSimilarity v e then
          ((cosineSimilarity v e, some c) : ℝ × Option QARecord) else acc).2 = none := h
      show (if acc.1 < cosineSimilarity v e then
          ((cosineSimilarity v e, some c) : ℝ × Option QARecord) else acc) = acc
      by_cases hlt : acc.1 < cosineSimilarity v e
      · rw [if_pos hlt] at h
        simp at h
      · rw [if_neg hlt]

/-- If the whole fold reports no best match, the accumulator never moved. -/
theorem foldl_scanStep_of_none (v : List ℝ) :
    ∀ (l : List QARecord) (acc : ℝ × Option QARecord),
      (List.foldl (scanStep v) acc l).2 = none →
      List.foldl (scanStep v) acc l = acc := by
  intro l
  induction l with
  | nil => intro acc _; rfl
  | cons c l ih =>
      intro acc h
      rw [List.foldl_cons] at h ⊢
      have hstep := ih (scanStep v acc c) h
      rw [hstep] at h ⊢
      exact scanStep_eq_of_none v acc c h

/-- A scan with no accepted best match reports `maxSimilarity = 0`. -/
theorem findBestMatch_none (v : List ℝ) (l : List QARecord)
    (h : (findBestMatch v l).2 = none) : (findBestMatch v l).1 = 0 := by
  unfold findBestMatch at h ⊢
  rw [foldl_scanStep_of_none v l (0, none) h]

/-- The running maximum stays below a bound that every scanned
similarity is below. -/
theorem foldl_scanStep_lt (v : List ℝ) (m : ℝ) :
    ∀ (l : List QARecord) (acc : ℝ × Option QARecord), acc.1 < m →
      (∀ c ∈ l, ∀ e, c.embedding = some e → cosineSimilarity v e < m) →
      (List.foldl (scanStep v) acc l).1 < m := by
  intro l
  induction l with
  | nil => intro acc hacc _; exact hacc
  | cons c l ih =>
      intro acc hacc h
      rw [List.foldl_cons]
      refine ih (scanStep v acc c) ?_ (fun c2 hc2 => h c2 (List.mem_cons_of_mem c hc2))
      unfold scanStep
      cases hc : c.embedding with
      | none => exact hacc
      | some e =>
          show (if acc.1 < cosineSimilarity v e then
              ((cosineSimilarity v e, some c) : ℝ × Option QARecord) else acc).1 < m
          by_cases hlt : acc.1 < cosineSimilarity v e
          · rw [if_pos hlt]
            exact h c (List.mem_cons_self c l) e hc
          · rw [if_neg hlt]
            exact hacc

/-- Once the maximum is reached, later records that do not exceed it
leave the accumulator untouched (strict-improvement update). -/
theorem foldl_scanStep_const (v : List ℝ) (m : ℝ) (r : QARecord) :
    ∀ (l : List QARecord),
      (∀ c ∈ l, ∀ e, c.embedding = some e → cosineSimilarity v e ≤ m) →
      List.foldl (scanStep v) (m, some r) l = (m, some r) := by
  intro l
  induction l with
  | nil => intro _; rfl
  | cons c l ih =>
      intro h
      rw [List.foldl_cons]
      have hstep : scanStep v (m, some r) c = (m, some r) := by
        unfold scanStep
        cases hc : c.embedding with
        | none => rfl
        | some e =>
            show (if m < cosineSimilarity v e then
                ((cosineSimilarity v e, some c) : ℝ × Option QARecord) else (m, some r)) =
              (m, some r)
            rw [if_neg (not_lt.mpr (h c (List.mem_cons_self c l) e hc))]
      rw [hstep]
      exact ih (fun c2 hc2 => h c2 (List.mem_cons_of_mem c hc2))

/-! ## C6 — first record reaching the maximum wins -/

/-- C6, as stated, is false on the code when the tied maximum is not
positive: here both records carry the all-zero fingerprint, so both
attain the maximum similarity score 0 — yet the scan, which starts from
`maxSimilarity = 0, bestMatch = null` and updates only on strict
improvement, selects no record at all instead of the first one. -/
theorem tied_zero_max_selects_none_cex :
    cosineSimilarity [1] [(0 : ℝ)] = 0 ∧
    findBestMatch [1] [⟨"a", "A", "t", some [0]⟩, ⟨"b", "B", "t", some [0]⟩] =
      (0, none) := by
  have hcos : cosineSimilarity [1] [(0 : ℝ)] = 0 := by
    simp [cosineSimilarity, sqNorm]
  refine ⟨hcos, ?_⟩
  simp only [findBestMatch, List.foldl_cons, List.foldl_nil, scanStep]
  rw [hcos, if_neg (lt_irrefl ((0 : ℝ), (none : Option QARecord)).1)]
  simp

/-- C6 (amended): when several records attain the maximum similarity
score and that maximum is positive, the scan — visiting records in
insertion order and skipping records without a fingerprint — selects the
first record reaching the maximum, with no secondary criterion; because
the accumulator starts at `(0, null)` and is replaced only on strict
improvement, a tied maximum of 0 or below selects no record (see the
counterexample). -/
theorem first_max_wins (v : List ℝ) (l1 l2 : List QARecord) (r : QARecord)
    (er : List ℝ) (m : ℝ)
    (hr : r.embedding = some er) (hsim : cosineSimilarity v er = m) (h0 : 0 < m)
    (h1 : ∀ c ∈ l1, ∀ e, c.embedding = some e → cosineSimilarity v e < m)
    (h2 : ∀ c ∈ l2, ∀ e, c.embedding = some e → cosineSimilarity v e ≤ m) :
    findBestMatch v (l1 ++ r :: l2) = (m, some r) := by
  unfold findBestMatch
  rw [List.foldl_append, List.foldl_cons]
  have hlt : (List.foldl (scanStep v) (0, none) l1).1 < m :=
    foldl_scanStep_lt v m l1 (0, none) h0 h1
  have hstep : scanStep v (List.foldl (scanStep v) (0, none) l1) r = (m, some r) := by
    unfold scanStep
    rw [hr]
    show (if (List.foldl (scanStep v) (0, none) l1).1 < cosineSimilarity v er then
        ((cosineSimilarity v er, some r) : ℝ × Option QARecord)
      else List.foldl (scanStep v) (0, none) l1) = (m, some r)
    rw [hsim, if_pos hlt]
  rw [hstep]
  exact foldl_scanStep_const v m r l2 h2

/-- C6 witness: two records with identical fingerprints both score 1
against the query; the first one is returned. -/
theorem first_max_wins_witness :
    findBestMatch [1] [⟨"a", "A", "t", some [1]⟩, ⟨"b", "B", "t", some [1]⟩] =
      (1, some ⟨"a", "A", "t", some [1]⟩) := by
  have hcos : cosineSimilarity [1] [(1 : ℝ)] = 1 := by
    simp [cosineSimilarity, dotProduct, sqNorm]
  have h := first_max_wins [1] [] [⟨"b", "B", "t", some [1]⟩]
    ⟨"a", "A", "t", some [1]⟩ [1] 1 rfl hcos one_pos
    (by intro c hc; simp at hc)
    (by
      intro c hc e he
      simp only [List.mem_singleton] at hc
      subst hc
      simp only at he
      cases he
      rw [hcos])
  simpa using h

/-! ## C5 — fixed acceptance threshold 0.8 -/

/-- C5: on the similarity path (valid question, hot-cache miss,
fingerprint computed), the resolver invokes generation exactly when the
best score is below the fixed threshold 0.8; and whenever the scan
returns a best record with score at least 0.8, the handler replies with
that record's answer, caches it, appends nothing, and makes no
generation call. -/
theorem threshold_acceptance (embedO : String → Option (List ℝ))
    (genO : String → Option String) (now : ℕ) (st : ServerState)
    (q : JsValue) (s : String) (v : List ℝ)
    (hq : checkQuestion q = some s)
    (hmiss : cacheLookup st.redis now s = none)
    (hemb : embedO s = some v) :
    ((ask embedO genO now st q).genCalls = 1 ↔
      (findBestMatch v st.chatHistory).1 < similarityThreshold) ∧
    (∀ best : QARecord, (findBestMatch v st.chatHistory).2 = some best →
      similarityThreshold ≤ (findBestMatch v st.chatHistory).1 →
      ask embedO genO now st q =
        ⟨200, .reply best.answer,
          ⟨redisSet st.redis s best.answer (now + 3600), st.chatHistory⟩, 1, 0⟩) := by
  have hsim : ask embedO genO now st q = askSimilarity genO now st s v := by
    simp [ask, hq, askValid, hmiss, askMiss, hemb]
  rw [hsim]
  have hgen1 : (generatePath genO now st s v).genCalls = 1 := by
    rcases hg : genO s with _ | g
    · simp [generatePath, hg]
    · simp [generatePath, hg]
  rcases hf : findBestMatch v st.chatHistory with ⟨m, b⟩
  cases b with
  | none =>
      have hm : m = 0 := by
        have h2 := findBestMatch_none v st.chatHistory (by rw [hf])
        rw [hf] at h2
        exact h2
      subst hm
      constructor
      · simp only [askSimilarity, hf]
        constructor
        · intro _
          norm_num [similarityThreshold]
        · intro _
          exact hgen1
      · intro best hbest
        simp at hbest
  | some best =>
      by_cases hthr : similarityThreshold ≤ m
      · constructor
        · simp only [askSimilarity, hf, if_pos hthr]
          constructor
          · intro h
            simp at h
          · intro h
            exact absurd hthr (not_le.mpr h)
        · intro best2 hbest2 hthr2
          have hbb : best = best2 := by simpa using hbest2
          subst hbb
          simp only [askSimilarity, hf, if_pos hthr]
      · constructor
        · simp only [askSimilarity, hf, if_neg hthr]
          constructor
          · intro _
            exact not_le.mp hthr
          · intro _
            exact hgen1
        · intro best2 hbest2 hthr2
          exact absurd hthr2 hthr

/-- C5 witness: a corpus whose only record scores 0.95 (vectors `[1,0]`
and `[19/20, sqrt 39 / 20]`) is accepted — its answer is reused with no
generation call; a corpus whose only record scores 0.5 (vectors `[1,0]`
and `[1, sqrt 3]`) is rejected and generation is invoked. -/
theorem threshold_acceptance_witness :
    ask (fun _ => some [1, 0]) (fun _ => some "generated") 0
      ⟨[], [⟨"p95", "answer95", "t", some [19/20, Real.sqrt 39 / 20]⟩]⟩ (.vStr "q") =
      ⟨200, .reply "answer95",
        ⟨redisSet [] "q" "answer95" (0 + 3600),
          [⟨"p95", "answer95", "t", some [19/20, Real.sqrt 39 / 20]⟩]⟩, 1, 0⟩ ∧
    (ask (fun _ => some [1, 0]) (fun _ => some "generated") 0
      ⟨[], [⟨"p50", "answer50", "t", some [1, Real.sqrt 3]⟩]⟩ (.vStr "q")).genCalls = 1 := by
  have h39 : Real.sqrt 39 ^ 2 = 39 := Real.sq_sqrt (by norm_num)
  have hpow : (Real.sqrt 39 / 20 : ℝ) ^ 2 = 39 / 400 := by
    rw [div_pow, h39]
    norm_num
  have h95 : cosineSimilarity [1, 0] [19/20, Real.sqrt 39 / 20] = 19/20 := by
    simp only [cosineSimilarity, dotProduct, sqNorm, List.zipWith, List.map,
      List.length_cons, List.length_nil, List.take, List.sum_cons, List.sum_nil]
    norm_num [hpow, Real.sqrt_one]
  have h3 : Real.sqrt 3 ^ 2 = 3 := Real.sq_sqrt (by norm_num)
  have h4 : Real.sqrt 4 = 2 := by
    rw [show (4 : ℝ) = 2 ^ 2 by norm_num]
    exact Real.sqrt_sq (by norm_num)
  have h50 : cosineSimilarity [1, 0] [1, Real.sqrt 3] = 1 / 2 := by
    simp only [cosineSimilarity, dotProduct, sqNorm, List.zipWith, List.map,
      List.length_cons, List.length_nil, List.take, List.sum_cons, List.sum_nil]
    norm_num [h3, h4]
  have hF95 : findBestMatch [1, 0]
      [⟨"p95", "answer95", "t", some [19/20, Real.sqrt 39 / 20]⟩] =
      (19/20, some ⟨"p95", "answer95", "t", some [19/20, Real.sqrt 39 / 20]⟩) := by
    simp only [findBestMatch, List.foldl_cons, List.foldl_nil, scanStep]
    rw [h95, if_pos (by norm_num : ((0 : ℝ), (none : Option QARecord)).1 < 19/20)]
  have hF50 : findBestMatch [1, 0]
      [⟨"p50", "answer50", "t", some [1, Real.sqrt 3]⟩] =
      (1/2, some ⟨"p50", "answer50", "t", some [1, Real.sqrt 3]⟩) := by
    simp only [findBestMatch, List.foldl_cons, List.foldl_nil, scanStep]
    rw [h50, if_pos (by norm_num : ((0 : ℝ), (none : Option QARecord)).1 < 1/2)]
  constructor
  · exact (threshold_acceptance (fun _ => some [1, 0]) (fun _ => some "generated") 0
      ⟨[], [⟨"p95", "answer95", "t", some [19/20, Real.sqrt 39 / 20]⟩]⟩ (.vStr "q") "q"
      [1, 0] rfl rfl rfl).2
      ⟨"p95", "answer95", "t", some [19/20, Real.sqrt 39 / 20]⟩
      (by rw [hF95]) (by rw [hF95]; norm_num [similarityThreshold])
  · exact (threshold_acceptance (fun _ => some [1, 0]) (fun _ => some "generated") 0
      ⟨[], [⟨"p50", "answer50", "t", some [1, Real.sqrt 3]⟩]⟩ (.vStr "q") "q"
      [1, 0] rfl rfl rfl).1.mpr
      (by rw [hF50]; norm_num [similarityThreshold])

/-! ## C7 — cosine similarity never divides by zero -/

/-- A sum of squares is nonnegative. -/
theorem sqNorm_nonneg (v : List ℝ) : 0 ≤ sqNorm v := by
  unfold sqNorm
  refine List.sum_nonneg ?_
  intro x hx
  rcases List.mem_map.mp hx with ⟨y, _, hy⟩
  rw [← hy]
  exact sq_nonneg y

/-- C7: for equal-length vectors, `cosineSimilarity` returns 0 whenever
either squared norm is 0, and otherwise returns the dot product divided
by the product of the (square-root) norms, whose denominator is then
provably nonzero — the division-by-zero branch is unreachable. -/
theorem cosineSimilarity_safe (a b : List ℝ) (hlen : a.length = b.length) :
    (sqNorm a = 0 ∨ sqNorm b = 0 → cosineSimilarity a b = 0) ∧
    (sqNorm a ≠ 0 → sqNorm b ≠ 0 →
      Real.sqrt (sqNorm a) * Real.sqrt (sqNorm b) ≠ 0 ∧
      cosineSimilarity a b =
        dotProduct a b / (Real.sqrt (sqNorm a) * Real.sqrt (sqNorm b))) := by
  have htake : b.take a.length = b := by
    rw [hlen]
    exact List.take_length b
  constructor
  · intro h
    simp only [cosineSimilarity, htake]
    rw [if_pos h]
  · intro ha hb
    have hapos : 0 < sqNorm a := lt_of_le_of_ne (sqNorm_nonneg a) (Ne.symm ha)
    have hbpos : 0 < sqNorm b := lt_of_le_of_ne (sqNorm_nonneg b) (Ne.symm hb)
    refine ⟨mul_ne_zero ?_ ?_, ?_⟩
    · exact ne_of_gt (Real.sqrt_pos.mpr hapos)
    · exact ne_of_gt (Real.sqrt_pos.mpr hbpos)
    · simp only [cosineSimilarity, htake]
      rw [if_neg (by push_neg; exact ⟨ha, hb⟩)]

/-- C7 witness: the degenerate all-zero vector yields 0; a nonzero pair
takes the division branch, whose denominator is nonzero. -/
theorem cosineSimilarity_safe_witness :
    cosineSimilarity [(0 : ℝ)] [(0 : ℝ)] = 0 ∧
    (Real.sqrt (sqNorm [(3 : ℝ), 4]) * Real.sqrt (sqNorm [(5 : ℝ), 12]) ≠ 0 ∧
      cosineSimilarity [(3 : ℝ), 4] [(5 : ℝ), 12] =
        dotProduct [(3 : ℝ), 4] [(5 : ℝ), 12] /
          (Real.sqrt (sqNorm [(3 : ℝ), 4]) * Real.sqrt (sqNorm [(5 : ℝ), 12]))) :=
  ⟨(cosineSimilarity_safe [(0 : ℝ)] [(0 : ℝ)] rfl).1
      (Or.inl (by norm_num [sqNorm])),
   (cosineSimilarity_safe [(3 : ℝ), 4] [(5 : ℝ), 12] rfl).2
      (by norm_num [sqNorm]) (by norm_num [sqNorm])⟩

/-! ## C8 — append exactly once, only on the generation path -/

/-- C8: the vector store is unchanged on every path that does not invoke
generation (400 guard, hot-cache hit, embedding failure, similarity hit)
and on generation failure; exactly one new record is appended when — and
only when — generation is invoked and succeeds. -/
theorem persist_exactly_on_generation (embedO : String → Option (List ℝ))
    (genO : String → Option String) (now : ℕ) (st : ServerState) (q : JsValue) :
    ((ask embedO genO now st q).genCalls = 0 →
      (ask embedO genO now st q).state.chatHistory = st.chatHistory) ∧
    ((ask embedO genO now st q).status ≠ 200 →
      (ask embedO genO now st q).state.chatHistory = st.chatHistory) ∧
    ((ask embedO genO now st q).genCalls = 1 →
      (ask embedO genO now st q).status = 200 →
      ∃ c, (ask embedO genO now st q).state.chatHistory = st.chatHistory ++ [c]) := by
  rcases ask_cases embedO genO now st q with
    h | ⟨a, h⟩ | h | ⟨s, best, hq, h⟩ | h | ⟨s, v, g, hq, he, hg, h⟩ <;> rw [h]
  · exact ⟨fun _ => rfl, fun _ => rfl, fun _ h2 => absurd h2 (by norm_num)⟩
  · exact ⟨fun _ => rfl, fun _ => rfl, fun h1 _ => absurd h1 (by norm_num)⟩
  · exact ⟨fun _ => rfl, fun _ => rfl, fun _ h2 => absurd h2 (by norm_num)⟩
  · exact ⟨fun _ => rfl, fun _ => rfl, fun h1 _ => absurd h1 (by norm_num)⟩
  · exact ⟨fun h1 => absurd h1 (by norm_num), fun _ => rfl,
      fun _ h2 => absurd h2 (by norm_num)⟩
  · exact ⟨fun h1 => absurd h1 (by norm_num), fun h2 => absurd rfl h2,
      fun _ _ => ⟨⟨s, jsTrim g, isoTimestamp now, some v⟩, rfl⟩⟩

/-- C8 witness: a hot-cache hit makes no generation call and leaves the
vector store untouched. -/
theorem persist_exactly_on_generation_witness :
    (ask (fun _ => none) (fun _ => none) 2 ⟨[("k", "stored", 50)], []⟩
      (.vStr "k")).state.chatHistory = [] :=
  (persist_exactly_on_generation (fun _ => none) (fun _ => none) 2
    ⟨[("k", "stored", 50)], []⟩ (.vStr "k")).1 rfl

/-! ## C9 — fields of a newly created record -/

/-- C9, as stated, is false on the code: the generated reply is trimmed
but never checked for emptiness, so a provider reply of `" "` is
persisted as an empty `answer`.  The whole run is computed at an
explicit input: it succeeds (200) and the single appended record has an
empty answer. -/
theorem record_nonempty_cex :
    (ask (fun _ => some [1]) (fun _ => some " ") 0 ⟨[], []⟩ (.vStr "hi")).status = 200 ∧
    ((ask (fun _ => some [1]) (fun _ => some " ") 0 ⟨[], []⟩
      (.vStr "hi")).state.chatHistory.map QARecord.answer) = [""] :=
  ⟨rfl, rfl⟩

/-- C9 (amended): every record the `/ask` handler appends has a
non-empty question with non-whitespace content; its answer is exactly
the generation provider's reply with surrounding whitespace trimmed —
hence non-empty precisely when that reply has non-whitespace content. -/
theorem record_fields_after_creation (embedO : String → Option (List ℝ))
    (genO : String → Option String) (now : ℕ) (st : ServerState)
    (q : JsValue) (c : QARecord)
    (h : (ask embedO genO now st q).state.chatHistory = st.chatHistory ++ [c]) :
    c.question ≠ "" ∧ jsTrim c.question ≠ "" ∧
    ∃ g, genO c.question = some g ∧ c.answer = jsTrim g := by
  rcases ask_cases embedO genO now st q with
    he | ⟨a, he⟩ | he | ⟨s, best, hq, he⟩ | he | ⟨s, v, g, hq, hemb, hg, he⟩ <;>
    rw [he] at h <;> simp only at h
  · simp at h
  · simp at h
  · simp at h
  · simp at h
  · simp at h
  · have hc : c = ⟨s, jsTrim g, isoTimestamp now, some v⟩ := by
      have h2 := List.append_cancel_left h
      simp at h2
      exact h2.symm
    subst hc
    rcases checkQuestion_props q s hq with ⟨_, hs, hts⟩
    exact ⟨hs, hts, g, hg, rfl⟩

/-- C9 witness: the amended statement applied to the record appended by
a concrete successful generation run. -/
theorem record_fields_after_creation_witness :
    ("greetings" : String) ≠ "" ∧ jsTrim "greetings" ≠ "" ∧
    ∃ g, (fun (_ : String) => some " resp ") "greetings" = some g ∧ "resp" = jsTrim g := by
  simpa using record_fields_after_creation (fun _ => some [1]) (fun _ => some " resp ") 7
    ⟨[], []⟩ (.vStr "greetings") ⟨"greetings", "resp", isoTimestamp 7, some [1]⟩ rfl

/-! ## C10 — fingerprints of stored records -/

/-- C10: (i) every record appended by `/ask` carries a fingerprint,
namely the embedding computed for the submitted question itself — on
embedding failure the handler aborts before the append path, so no
fingerprint-less record enters the store through `/ask`; (ii) the
startup backfill maps each loaded record through `backfillRecord`, which
never changes `question`, `answer` or `timestamp`, keeps an existing
fingerprint unchanged, and on a fingerprint-less record stores exactly
what the embedding provider returns for its question. -/
theorem appended_record_has_fingerprint (embedO : String → Option (List ℝ))
    (genO : String → Option String) (now : ℕ) (st : ServerState)
    (q : JsValue) (c chat : QARecord) :
    ((ask embedO genO now st q).state.chatHistory = st.chatHistory ++ [c] →
      c.embedding ≠ none ∧ c.embedding = embedO c.question) ∧
    (initializeEmbeddings embedO st.chatHistory =
      st.chatHistory.map (backfillRecord embedO)) ∧
    ((backfillRecord embedO chat).question = chat.question ∧
      (backfillRecord embedO chat).answer = chat.answer ∧
      (backfillRecord embedO chat).timestamp = chat.timestamp) ∧
    (∀ e, chat.embedding = some e → (backfillRecord embedO chat).embedding = some e) ∧
    (chat.embedding = none →
      (backfillRecord embedO chat).embedding = embedO chat.question) := by
  refine ⟨?_, rfl, ?_, ?_, ?_⟩
  · intro h
    rcases ask_cases embedO genO now st q with
      he | ⟨a, he⟩ | he | ⟨s, best, hq, he⟩ | he | ⟨s, v, g, hq, hemb, hg, he⟩ <;>
      rw [he] at h <;> simp only at h
    · simp at h
    · simp at h
    · simp at h
    · simp at h
    · simp at h
    · have hc : c = ⟨s, jsTrim g, isoTimestamp now, some v⟩ := by
        have h2 := List.append_cancel_left h
        simp at h2
        exact h2.symm
      subst hc
      exact ⟨by simp, by simp [hemb]⟩
  · unfold backfillRecord
    cases hc : chat.embedding with
    | some e => exact ⟨rfl, rfl, rfl⟩
    | none =>
        cases he : embedO chat.question with
        | none => exact ⟨rfl, rfl, rfl⟩
        | some e => exact ⟨rfl, rfl, rfl⟩
  · intro e he
    unfold backfillRecord
    rw [he]
    exact he
  · intro hnone
    unfold backfillRecord
    rw [hnone]
    cases he : embedO chat.question with
    | none => exact hnone
    | some e => rfl

/-- C10 witness: the first part applied to the record appended by a
concrete run, and the backfill parts applied to a concrete
fingerprint-less record. -/
theorem appended_record_has_fingerprint_witness :
    ((⟨"hey", "ok", isoTimestamp 2, some [5]⟩ : QARecord).embedding ≠ none ∧
      (⟨"hey", "ok", isoTimestamp 2, some [5]⟩ : QARecord).embedding =
        (fun (_ : String) => some [(5 : ℝ)]) "hey") ∧
    (backfillRecord (fun _ => some [(9 : ℝ)]) ⟨"x", "y", "z", none⟩).embedding =
      (fun (_ : String) => some [(9 : ℝ)]) "x" := by
  constructor
  · exact (appended_record_has_fingerprint (fun _ => some [5]) (fun _ => some "ok") 2
      ⟨[], []⟩ (.vStr "hey") ⟨"hey", "ok", isoTimestamp 2, some [5]⟩
      ⟨"x", "y", "z", none⟩).1 rfl
  · exact (appended_record_has_fingerprint (fun _ => some [(9 : ℝ)]) (fun _ => some "ok") 2
      ⟨[], []⟩ (.vStr "hey") ⟨"hey", "ok", isoTimestamp 2, some [(9 : ℝ)]⟩
      ⟨"x", "y", "z", none⟩).2.2.2.2 rfl

end ProductAgent
